import Mathlib

/-!
# Verification of the SDMX-CSV loader (`arelle/plugin/loadFromSDMX.py`)
# and the runtime-options object (`arelle/RuntimeOptions.py`)

This file gives a shallow embedding of the parts of the loader that the
specification talks about: header detection, column classification,
time-period normalization, decimals/precision computation, unit/language
resolution, context-identifier construction, deduplication, and the
data-row processing loop, together with the plugin-option collision check
of `RuntimeOptions.__post_init__`.  Theorems about the embedding settle
the specification's claims.

Conventions: a CSV document is taken at the `csv.reader` boundary, as a
`List (List String)` of rows of cells.  Python `None`-able cells are
`Option String`.  Machine-facing collaborators that live outside the two
source files (concept metadata, the `dateTime` parser, period ids) are
modelled from the specification and marked as such in their doc comments.
-/

namespace Sdmx

/-- Qualified name of a taxonomy concept: target namespace and local name
(`arelle.ModelValue.QName` as used by the loader). -/
structure QN where
  ns : String
  ln : String
deriving DecidableEq, Repr

/-- `QName.localName`. -/
def QN.localName (q : QN) : String := q.ln

/-- Modelled from the spec: the "target concept identifier" used as the
sort key for dimension ordering (§4.5 step 2); rendered in Clark notation.
`arelle.ModelValue.QName` ordering is not under `src/`. -/
def QN.key (q : QN) : String := "\x7b" ++ q.ns ++ "\x7d" ++ q.ln

/-- Python whitespace as stripped by `str.strip()` (ASCII subset). -/
def isPySpace (c : Char) : Bool :=
  c = ' ' ∨ c = '\t' ∨ c = '\n' ∨ c = '\r' ∨ c = '\x0b' ∨ c = '\x0c'

/-- Python `str.strip()` on a character list. -/
def pyStripL (l : List Char) : List Char :=
  ((l.dropWhile isPySpace).reverse.dropWhile isPySpace).reverse

/-- Python `str.strip()`. -/
def pyStrip (s : String) : String := ⟨pyStripL s.data⟩

/-- Python `str.replace(":", "_")` (single-character pattern). -/
def pyReplaceColon (s : String) : String :=
  ⟨s.data.map (fun c => if c = ':' then '_' else c)⟩

/-- Python `str.isdigit()` restricted to ASCII decimal digits:
nonempty and all characters are digits. -/
def pyIsDigit (l : List Char) : Bool :=
  !l.isEmpty && l.all (·.isDigit)

/-- Python `str.replace('.', '', 1)`: drop the first dot, if any. -/
def removeFirstDot : List Char → List Char
  | [] => []
  | c :: r => if c = '.' then r else c :: removeFirstDot r

/-- Python `str.split('.', 1)[1]`: everything after the first dot
(unused when there is no dot). -/
def afterFirstDot : List Char → List Char
  | [] => []
  | c :: r => if c = '.' then r else afterFirstDot r

/-- A decimals/precision value: a number or the unbounded `"INF"` sentinel. -/
inductive DecOrInf
  | inf
  | val (n : Nat)
deriving DecidableEq, Repr

/-- Python `'.' in s`. -/
def hasDot : List Char → Bool
  | [] => false
  | c :: r => c = '.' || hasDot r

/-- Decimals and precision computed from the literal observation value
(source lines 1306–1315): if `obsValue.replace('.','',1).isdigit()`, then
decimals is the digit count after the (first) dot — `0` when there is no
dot — and precision is the digit count with the dot removed; otherwise
both are the `"INF"` sentinel. -/
def decimalsPrecision (obsValue : String) : DecOrInf × DecOrInf :=
  if pyIsDigit (removeFirstDot obsValue.data) then
    ( if hasDot obsValue.data then .val (afterFirstDot obsValue.data).length
      else .val 0,
      .val (removeFirstDot obsValue.data).length )
  else (.inf, .inf)

/-- A proleptic-Gregorian calendar date as produced by `datetime.date`. -/
structure Date where
  y : Int
  m : Nat
  d : Nat
deriving DecidableEq, Repr

/-- Gregorian leap-year test (as used by `datetime.date`). -/
def isLeap (y : Int) : Bool :=
  y % 4 = 0 && (y % 100 != 0 || y % 400 = 0)

/-- Number of days of month `m` of year `y`: the upper day bound enforced
by the `datetime.date` constructor. -/
def daysInMonth (y : Int) (m : Nat) : Nat :=
  if m = 2 then (if isLeap y then 29 else 28)
  else if m = 4 ∨ m = 6 ∨ m = 9 ∨ m = 11 then 30
  else 31

/-- `datetime.date(y, m, d)`: `none` when the constructor raises
`ValueError` (year outside 1..9999, month outside 1..12, day outside the
month). -/
def mkDate (y m d : Int) : Option Date :=
  if 1 ≤ y ∧ y ≤ 9999 ∧ 1 ≤ m ∧ m ≤ 12 ∧ 1 ≤ d ∧ d ≤ (daysInMonth y m.toNat : Int) then
    some ⟨y, m.toNat, d.toNat⟩
  else none

/-- Value of a nonempty all-digit character list. -/
def natOfDigits (l : List Char) : Option Nat :=
  if pyIsDigit l then some (l.foldl (fun a c => a * 10 + (c.toNat - '0'.toNat)) 0)
  else none

/-- Python `int(str)`: surrounding whitespace, an optional sign, then
decimal digits (digit-group underscores are not modelled). -/
def pyInt (l : List Char) : Option Int :=
  match pyStripL l with
  | '+' :: r => (natOfDigits r).map Int.ofNat
  | '-' :: r => (natOfDigits r).map (fun n => -(n : Int))
  | r => (natOfDigits r).map Int.ofNat

/-- A date-or-datetime union value (`DATEUNION`), as returned by the
arelle date parser. -/
inductive DtU
  | dOnly (d : Date)
  | dTime (d : Date) (hh mi ss : Nat)
deriving DecidableEq, Repr

/-- 10-character ISO `YYYY-MM-DD` calendar-date literal. -/
def parseDateL (l : List Char) : Option Date :=
  if l.length = 10 then
    match l with
    | [y1, y2, y3, y4, s1, m1, m2, s2, d1, d2] =>
      if s1 = '-' ∧ s2 = '-' then
        match natOfDigits [y1, y2, y3, y4], natOfDigits [m1, m2], natOfDigits [d1, d2] with
        | some yy, some mm, some dd => mkDate yy mm dd
        | _, _, _ => none
      else none
    | _ => none
  else none

/-- 19-character ISO `YYYY-MM-DDThh:mm:ss` date-time literal. -/
def parseIsoDateTime (l : List Char) : Option DtU :=
  if l.length = 19 then
    match parseDateL (l.take 10), l.drop 10 with
    | some d, 'T' :: h1 :: h2 :: ':' :: n1 :: n2 :: ':' :: x1 :: x2 :: [] =>
      match natOfDigits [h1, h2], natOfDigits [n1, n2], natOfDigits [x1, x2] with
      | some hh, some mi, some ss =>
        if hh < 24 ∧ mi < 60 ∧ ss < 60 then some (.dTime d hh mi ss) else none
      | _, _, _ => none
    | _, _ => none
  else none

/-- Modelled from the spec: `arelle.ModelValue.dateTime(v, type=DATEUNION,
castException=ValueError)` is not under `src/`; §4.6(a) accepts "a calendar
date or date-time literal (ISO 8601)", i.e. `YYYY-MM-DD` or
`YYYY-MM-DDThh:mm:ss`; anything else raises (`none`). -/
def parseIsoInstant (s : String) : Option DtU :=
  match parseDateL s.data with
  | some d => some (.dOnly d)
  | none => parseIsoDateTime s.data

/-- Severity of a reported diagnostic. -/
inductive Sev
  | info
  | warning
  | error
deriving DecidableEq, Repr

/-- A diagnostic sent to the host logger: severity, message code, and the
data values interpolated into the message. -/
structure LogMsg where
  sev : Sev
  code : String
  args : List String := []
deriving DecidableEq, Repr

/-- Result of normalizing one `TIME_PERIOD` value: an instant, a
skip-this-fact failure, or an uncaught Python exception. -/
inductive TPRes
  | inst (d : DtU)
  | fail
  | crash (e : String)
deriving DecidableEq, Repr

/-- A `TIME_PERIOD` warning diagnostic (code
`arelle:loadFromSdmxCsvInvalidTimePeriod` throughout). -/
def tpWarn (v arg : String) : LogMsg :=
  ⟨.warning, "arelle:loadFromSdmxCsvInvalidTimePeriod", [v, arg]⟩

/-- The duration fallback of source lines 1134–1156, reached when the ISO
parse raised: report the "attempting to parse as duration" warning; for a
7-character value with `-` at index 4 run `int(year)`, `int(month)` and
`datetime.date(year, month, 1)` — a `ValueError` from any of them is
caught and skips the fact with a further warning, but when all three
succeed the `periodEnd` statement of line 1144 evaluates `monthrange`, a
name the module never imports (line 53 brings in neither `calendar` nor
`monthrange`), raising a `NameError` that the `except ValueError` of line
1145 does not catch; any other shape is unsupported and skips the fact
with a further warning. -/
def parseTimePeriodFallback (v : String) : TPRes × List LogMsg :=
  if v.data.length = 7 ∧ v.data.get? 4 = some '-' then
    match pyInt (v.data.take 4), pyInt ((v.data.drop 5).take 2) with
    | some yy, some mm =>
      match mkDate yy mm 1 with
      | some _ =>
        (.crash "NameError: name monthrange is not defined",
         [tpWarn v "attempting to parse as duration"])
      | none =>
        (.fail, [tpWarn v "attempting to parse as duration", tpWarn v "skipping fact"])
    | _, _ =>
      (.fail, [tpWarn v "attempting to parse as duration", tpWarn v "skipping fact"])
  else
    (.fail, [tpWarn v "attempting to parse as duration", tpWarn v "unsupported, skipping fact"])

/-- Time-period normalization for one `TIME_PERIOD` cell value (source
lines 1127–1157): first the ISO date/date-time parse (instant); on
`ValueError` the duration fallback. -/
def parseTimePeriodRaw (v : String) : TPRes × List LogMsg :=
  match parseIsoInstant v with
  | some dtu => (.inst dtu, [])
  | none => parseTimePeriodFallback v

/-- Association-list lookup by string key (Python `dict` as built by the
mapping loader; keys in insertion order). -/
def alookup {β : Type} : List (String × β) → String → Option β
  | [], _ => none
  | (k, v) :: r, x => if k = x then some v else alookup r x

/-- Association-list update with Python `dict` semantics: an existing key
keeps its position and gets the new value, a new key is appended. -/
def updAssoc {α β : Type} [DecidableEq α] : List (α × β) → α → β → List (α × β)
  | [], k, v => [(k, v)]
  | (k', v') :: r, k, v => if k' = k then (k, v) :: r else (k', v') :: updAssoc r k v

/-- Generic association-list lookup (decidable keys). -/
def klookup {α β : Type} [DecidableEq α] : List (α × β) → α → Option β
  | [], _ => none
  | (k', v) :: r, k => if k' = k then some v else klookup r k

/-- One entry of the dimension table: `dimMappings[sdmxName] =
(qnameDimConcept, qnameDomConcept, qnameMemConcept, isTyped)`. -/
structure DimMapEntry where
  dimQn : QN
  domQn : Option QN
  memQn : Option QN
  isTyped : Bool
deriving DecidableEq, Repr

/-- The typed lookup tables produced by the mapping loader (§4.1):
`dimMappings`, `memMappings`, `measureMappings`, `attributeMappings`,
`unitMappings`, `languageMappings`, in insertion order. -/
structure MapTables where
  dimMappings : List (String × DimMapEntry) := []
  memMappings : List (QN × List (String × QN)) := []
  measureMappings : List (String × QN) := []
  attributeMappings : List (String × QN) := []
  unitMappings : List (String × String) := []
  languageMappings : List (String × String) := []
deriving Repr

/-- `memMappings.get(qnameDimConcept, {}).get(dimValue)`. -/
def memLookup (t : MapTables) (dim : QN) (v : String) : Option QN :=
  match klookup t.memMappings dim with
  | some m => alookup m v
  | none => none

/-- A nonempty header cell resolves to a known dimension, measure, or
attribute name (header-detection rule (b), source lines 872–873). -/
def knownName (t : MapTables) (c : String) : Bool :=
  (alookup t.dimMappings c).isSome || (alookup t.measureMappings c).isSome
    || (alookup t.attributeMappings c).isSome

/-- The series-attribute test of source lines 888–896, one cell at a time:
walking the candidate row against the header, a non-empty cell under a
dimension-mapped header name disqualifies the row (`isSeriesAttrRow =
False`, break); a non-empty cell under any other header position sets
`hasSeriesAttrValues`.  Indexing `header[j]` past the end of the header
raises `IndexError` (`Except.error`). -/
def seriesAttrGo (t : MapTables) : List String → List String → Bool → Except String (Bool × Bool)
  | [], _, hasV => .ok (true, hasV)
  | _ :: _, [], _ => .error "IndexError: list index out of range"
  | c :: cs, h :: hs, hasV =>
    if (alookup t.dimMappings h).isSome then
      if c ≠ "" then .ok (false, hasV)
      else seriesAttrGo t cs hs hasV
    else if c ≠ "" then seriesAttrGo t cs hs true
    else seriesAttrGo t cs hs hasV

/-- `(isSeriesAttrRow, hasSeriesAttrValues)` for the row following the
header. -/
def seriesAttrCheck (t : MapTables) (header row : List String) : Except String (Bool × Bool) :=
  seriesAttrGo t row header false

instance {ε α : Type} [DecidableEq ε] [DecidableEq α] : DecidableEq (Except ε α) := fun x y =>
  match x, y with
  | .ok a, .ok b =>
    if h : a = b then isTrue (by rw [h]) else isFalse (fun e => h (Except.ok.inj e))
  | .error a, .error b =>
    if h : a = b then isTrue (by rw [h]) else isFalse (fun e => h (Except.error.inj e))
  | .ok _, .error _ => isFalse (fun e => Except.noConfusion e)
  | .error _, .ok _ => isFalse (fun e => Except.noConfusion e)

/-- A header name is dimension-mapped. -/
def isDimName (t : MapTables) (h : String) : Bool :=
  (alookup t.dimMappings h).isSome

/-- The series-attribute qualification condition as the claim/spec states
it (§4.3): every cell under a dimension-mapped header column is empty and
at least one cell under an **attribute-mapped** header column is
non-empty.  Stated over the cell/header pairs the loop visits. -/
def claimSeriesAttrQualifies (t : MapTables) (header row : List String) : Prop :=
  (∀ p ∈ row.zip header, isDimName t p.2 = true → p.1 = "") ∧
  (∃ p ∈ row.zip header, (alookup t.attributeMappings p.2).isSome = true ∧ p.1 ≠ "")

instance (t : MapTables) (header row : List String) :
    Decidable (claimSeriesAttrQualifies t header row) :=
  inferInstanceAs (Decidable (_ ∧ _))

/-- The qualification condition the source actually implements: every
cell under a dimension-mapped header column is empty and at least one
cell under a **non-dimension-mapped** header position (measure-mapped,
attribute-mapped, unmapped, or empty) is non-empty. -/
def codeSeriesAttrQualifies (t : MapTables) (header row : List String) : Prop :=
  (∀ p ∈ row.zip header, isDimName t p.2 = true → p.1 = "") ∧
  (∃ p ∈ row.zip header, isDimName t p.2 = false ∧ p.1 ≠ "")

instance (t : MapTables) (header row : List String) :
    Decidable (codeSeriesAttrQualifies t header row) :=
  inferInstanceAs (Decidable (_ ∧ _))

/-- Result of header-row detection (source lines 854–901). -/
structure HeaderResult where
  header : Option (List String)
  seriesAttrs : Option (List String)
  seriesAttrValues : Option (List String)
  headerLineNum : Nat
  missing : List String
deriving DecidableEq, Repr

/-- Header-detection rule (b) (source lines 872–873): every non-empty
cell resolves to a known dimension, measure, or attribute name. -/
def ruleB (t : MapTables) (row : List String) : Bool :=
  row.all (fun c => c = "" || knownName t c)

/-- First cell is the reserved `FREQ` series-key marker (source line 878). -/
def freqFirst (row : List String) : Bool :=
  match row with
  | c :: _ => c = "FREQ"
  | [] => false

/-- The `HeaderResult` produced when the loop breaks on the row after the
header (source lines 885–901): a qualifying probe row is recorded as the
series-attribute row (names from the header, values from the row). -/
def mkSeriesResult (header row : List String) (i : Nat) (p : Bool × Bool) : HeaderResult :=
  if p.1 && p.2 then ⟨some header, some header, some row, i, []⟩
  else ⟨some header, none, none, i, []⟩

/-- The header-detection loop of source lines 862–901.  `hln` is the
`headerLineNum` variable (set to the row index at the top of every
iteration); the first row containing `OBS_VALUE`, else the first row all
of whose nonempty cells are known names, becomes the header; an `FREQ`
first cell before any header is a structural failure; the row after the
header is probed as a series-attribute row and the loop breaks there. -/
def findHeaderGo (t : MapTables) : List (List String) → Nat → Option (List String) → Nat →
    Except String HeaderResult
  | [], _, found, hln => .ok ⟨found, none, none, hln, []⟩
  | row :: rest, i, found, _ =>
    match found with
    | none =>
      if "OBS_VALUE" ∈ row then findHeaderGo t rest (i + 1) (some row) i
      else if ruleB t row then findHeaderGo t rest (i + 1) (some row) i
      else if freqFirst row then
        .ok ⟨none, none, none, i, ["Unable to determine header row for SDMX-CSV file."]⟩
      else findHeaderGo t rest (i + 1) none i
    | some header =>
      match seriesAttrCheck t header row with
      | .error e => .error e
      | .ok p => .ok (mkSeriesResult header row i p)

/-- Header detection over the whole document. -/
def findHeader (t : MapTables) (rows : List (List String)) : Except String HeaderResult :=
  findHeaderGo t rows 0 none 0

/-- A header column classified as a dimension (source line 927). -/
structure DimCol where
  idx : Nat
  name : String
  dimQn : QN
  domQn : Option QN
  memQn : Option QN
  isTyped : Bool
deriving DecidableEq, Repr

/-- A header column classified as a measure (source line 932). -/
structure MeasureCol where
  idx : Nat
  name : String
  qn : QN
deriving DecidableEq, Repr

/-- A header column classified as an attribute (source line 937). -/
structure AttrCol where
  idx : Nat
  name : String
  qn : QN
deriving DecidableEq, Repr

/-- The column-classification state of source lines 916–942. -/
structure Cols where
  dimCols : List DimCol := []
  measureCols : List MeasureCol := []
  attrCols : List AttrCol := []
  obsValueCol : Int := -1
  timePeriodCol : Int := -1
  obsAttributes : List (Nat × QN) := []
deriving DecidableEq, Repr

/-- Classify one header cell (loop body of source lines 923–942). -/
def classifyCell (t : MapTables) (acc : Cols) (i : Nat) (colName : String) : Cols :=
  if colName = "" then acc
  else match alookup t.dimMappings colName with
  | some e =>
    { acc with
      dimCols := acc.dimCols ++ [⟨i, colName, e.dimQn, e.domQn, e.memQn, e.isTyped⟩],
      timePeriodCol := if colName = "TIME_PERIOD" then (i : Int) else acc.timePeriodCol }
  | none => match alookup t.measureMappings colName with
    | some q =>
      { acc with
        measureCols := acc.measureCols ++ [⟨i, colName, q⟩],
        obsValueCol := if colName = "OBS_VALUE" then (i : Int) else acc.obsValueCol }
    | none => match alookup t.attributeMappings colName with
      | some q =>
        { acc with
          attrCols := acc.attrCols ++ [⟨i, colName, q⟩],
          obsAttributes :=
            if acc.obsValueCol ≠ -1 ∧ (i : Int) > acc.obsValueCol then
              acc.obsAttributes ++ [(i, q)]
            else acc.obsAttributes }
      | none => acc

/-- Column classification over the whole header row. -/
def classifyColumns (t : MapTables) (header : List String) : Cols :=
  (header.enum.foldl (fun acc p => classifyCell t acc p.1 p.2) {})

/-- Python `list.index` returning the first position, `none` when absent. -/
def pyIndexOf (l : List String) (x : String) : Option Nat :=
  go l 0
where
  go : List String → Nat → Option Nat
    | [], _ => none
    | c :: r, i => if c = x then some i else go r (i + 1)

/-- Resolution of the primary-measure column (source lines 945–953):
`obsValueCol` from classification; the fallback block runs only when
`obsValueCol == -1 and not measureCols`, in which case the inner
`if measureCols` branch is dead and only `header.index("OBS_VALUE")` can
still resolve it. -/
def resolveObsValueCol (c : Cols) (header : List String) : Int :=
  if c.obsValueCol = -1 ∧ c.measureCols.isEmpty then
    match c.measureCols with
    | m :: _ => (m.idx : Int)
    | [] =>
      match pyIndexOf header "OBS_VALUE" with
      | some i => (i : Int)
      | none => c.obsValueCol
  else c.obsValueCol

/-- Lexicographic comparison of character lists by code point (the string
order used to sort dimension concept identifiers). -/
def strLeB : List Char → List Char → Bool
  | [], _ => true
  | _ :: _, [] => false
  | a :: as, b :: bs =>
    if a.toNat < b.toNat then true
    else if b.toNat < a.toNat then false
    else strLeB as bs

/-- The sort key of a dimension column: its target dimension concept
identifier (`sorted(dimCols, key=lambda item: item[2])`, source line 967). -/
def dimKey (d : DimCol) : List Char := d.dimQn.key.data

/-- Dimension-column ordering by target dimension concept identifier. -/
def dimLe (a b : DimCol) : Prop := strLeB (dimKey a) (dimKey b) = true

instance : DecidableRel dimLe := fun a b =>
  inferInstanceAs (Decidable (strLeB (dimKey a) (dimKey b) = true))

/-- Stable sort of the dimension columns by concept identifier (Python's
`sorted` is a stable sort). -/
def sortDims (l : List DimCol) : List DimCol := l.insertionSort dimLe

/-- The placeholder names of the context-identifier pattern, after
`{entity}` and `{period}`: the non-`TIME_PERIOD` dimension column names in
ascending concept-identifier order, with `:` replaced by `_` (source lines
966–970). -/
def cntxIdHoles (dimCols : List DimCol) : List String :=
  ((sortDims dimCols).filter (fun d => d.name ≠ "TIME_PERIOD")).map (fun d => pyReplaceColon d.name)

/-- `cntxIdPattern.format(**cntxIdFormatValues)`: the entity value and the
period id, then each hole's value, joined by `_`. -/
def formatCntxId (entity periodId : String) (holes : List String)
    (vals : List (String × String)) : String :=
  holes.foldl (fun acc h => acc ++ "_" ++ ((alookup vals h).getD "")) (entity ++ "_" ++ periodId)

/-- An XBRL period: an instant, or a start/end duration.  Never partially
populated. -/
inductive PeriodSpec
  | instant (d : DtU)
  | span (a b : Date)
deriving DecidableEq, Repr

/-- Zero-padded two-digit rendering. -/
def pad2 (n : Nat) : String := if n < 10 then "0" ++ toString n else toString n

/-- ISO rendering of a date. -/
def dateStr (d : Date) : String :=
  toString d.y ++ "-" ++ pad2 d.m ++ "-" ++ pad2 d.d

/-- Modelled from the spec: `period.periodId` (built by
`ModelInstanceObject.createContextPeriod`, not under `src/`) — a
deterministic textual identifier of the period interposed into the
context-identifier template (§4.5 step 2). -/
def PeriodSpec.periodId : PeriodSpec → String
  | .instant (.dOnly d) => dateStr d
  | .instant (.dTime d hh mi ss) => dateStr d ++ "T" ++ pad2 hh ++ pad2 mi ++ pad2 ss
  | .span a b => dateStr a ++ "_" ++ dateStr b

/-- A resolved dimension value: the literal text (typed dimension) or the
mapped member concept (explicit dimension). -/
inductive DimVal
  | typed (s : String)
  | expl (q : QN)
deriving DecidableEq, Repr

/-- `colIndex < len(row) and row[colIndex]` over `None`-able cells:
`some` exactly when the cell exists and is truthy. -/
def getCell (cells : List (Option String)) (i : Nat) : Option String :=
  match cells.get? i with
  | some (some s) => if s = "" then none else some s
  | _ => none

/-- Same truthy-cell access over a plain string row. -/
def getCellS (row : List String) (i : Nat) : Option String :=
  match row.get? i with
  | some s => if s = "" then none else some s
  | _ => none

/-- Outcome of the dimension loop of source lines 1105–1174: the resolved
dimension values, the `periodInstant` / `periodStart` / `periodEnd`
variables, and the warnings; a skip-this-fact flag with warnings; or an
uncaught Python exception with the warnings reported before it. -/
inductive DimPhase
  | ok (vals : List (String × DimVal)) (pInst : Option DtU) (pStart pEnd : Option Date)
      (log : List LogMsg)
  | skip (log : List LogMsg)
  | err (e : String) (log : List LogMsg)
deriving Repr

/-- The dimension loop (source lines 1105–1174): a missing or falsy cell
skips the fact unless the column is `TIME_PERIOD`; a `TIME_PERIOD` cell is
normalized by `parseTimePeriodRaw` (whose `NameError` propagates); a typed
dimension stores the stripped literal; an explicit dimension stores the
mapped member or skips the fact when unmapped. -/
def processDimCols (t : MapTables) (cells : List (Option String)) :
    List DimCol → List (String × DimVal) → Option DtU → Option Date → Option Date →
    List LogMsg → DimPhase
  | [], vals, pInst, pStart, pEnd, log => .ok vals pInst pStart pEnd log
  | dc :: rest, vals, pInst, pStart, pEnd, log =>
    match getCell cells dc.idx with
    | none =>
      if dc.name ≠ "TIME_PERIOD" then
        .skip (log ++ [⟨.warning, "arelle:loadFromSdmxCsvMissingDimValue", [dc.name]⟩])
      else processDimCols t cells rest vals pInst pStart pEnd log
    | some raw =>
      let dimValue := pyStrip raw
      if dc.name = "TIME_PERIOD" then
        match parseTimePeriodRaw dimValue with
        | (.inst d, plog) => processDimCols t cells rest vals (some d) pStart pEnd (log ++ plog)
        | (.fail, plog) => .skip (log ++ plog)
        | (.crash e, plog) => .err e (log ++ plog)
      else if dc.isTyped then
        processDimCols t cells rest (updAssoc vals dc.name (.typed dimValue)) pInst pStart pEnd log
      else
        match memLookup t dc.dimQn dimValue with
        | some m =>
          processDimCols t cells rest (updAssoc vals dc.name (.expl m)) pInst pStart pEnd log
        | none =>
          .skip (log ++ [⟨.warning, "arelle:loadFromSdmxCsvMissingMemberMapping", [dc.name, dimValue]⟩])

/-- Fact attribute keys: attribute concept QNames, plus the raw
`decimals` / `precision` strings appended for numeric facts. -/
inductive AttrKey
  | qn (q : QN)
  | raw (s : String)
deriving DecidableEq, Repr

/-- Fact attribute values: strings, or decimals/precision values. -/
inductive AttrVal
  | str (s : String)
  | dec (d : DecOrInf)
deriving DecidableEq, Repr

/-- A fact emitted to the host through `createFact`. -/
structure FactSpec where
  concept : QN
  contextID : String
  unitID : String
  attrs : List (AttrKey × AttrVal)
  value : String
deriving DecidableEq, Repr

/-- Host collaborators (§6): concept metadata classification
(numeric/text), and the optional dimensional-validity check. -/
structure Host where
  isNumeric : QN → Bool
  isXbrlText : QN → Bool
  hasXDT : Bool := false
  dimensionallyValid : FactSpec → Bool := fun _ => true

/-- A value of the `existingFacts` index: the fact value string for
numeric facts, the Python `True` marker for non-numeric ones. -/
inductive ExVal
  | str (s : String)
  | presentTrue
deriving DecidableEq, Repr

/-- Python `existingFacts[factKey] == obsValue`: `True == str` is `False`. -/
def ExVal.eqStr : ExVal → String → Bool
  | .str s, v => s = v
  | .presentTrue, _ => false

/-- The fact deduplication key `(conceptQn, contextID, unitID, lang)`. -/
abbrev FactKey := QN × String × Option String × Option String

/-- Mutable state of one load: the series key, the context and unit
caches, the existing-facts index, the emitted facts, the counters, and the
log. -/
structure LoadState where
  seriesKeys : Option (List String) := none
  contexts : List (String × PeriodSpec) := []
  units : List String := []
  existingFacts : List (FactKey × ExVal) := []
  facts : List FactSpec := []
  numFactsLoaded : Nat := 0
  numFactsSkipped : Nat := 0
  log : List LogMsg := []
deriving DecidableEq, Repr

/-- Per-file constants computed before the data-row loop. -/
structure RowCtx where
  t : MapTables
  header : List String
  dimCols : List DimCol
  measureCols : List MeasureCol
  obsAttributes : List (Nat × QN)
  seriesAttrs : Option (List String)
  seriesAttrValues : Option (List String)
  obsValueCol : Nat
  holes : List String
  defaultUnitId : String
  obsUnitCol : Option Nat
  obsLangCol : Option Nat
  entityVal : String
  defaultLang : String

/-- Per-row unit resolution (source lines 1245–1253): a truthy `OBS_UNIT`
cell is looked up in the units table; an unknown code reports a warning
and keeps the default unit id. -/
def resolveUnit (t : MapTables) (defaultUnitId : String) (obsUnitCol : Option Nat)
    (cells : List (Option String)) : String × List LogMsg :=
  match obsUnitCol with
  | none => (defaultUnitId, [])
  | some c =>
    match getCell cells c with
    | none => (defaultUnitId, [])
    | some raw =>
      let sdmxUnit := pyStrip raw
      match alookup t.unitMappings sdmxUnit with
      | some uid => (uid, [])
      | none =>
        (defaultUnitId,
         [⟨.warning, "arelle:loadFromSdmxCsvUnknownUnit", [sdmxUnit, defaultUnitId]⟩])

/-- Per-row language resolution (source lines 1293–1303): a truthy
`OBS_LANG` cell is looked up in the languages table; an unknown code
reports a warning and keeps the default language. -/
def resolveLang (t : MapTables) (defaultLang : String) (obsLangCol : Option Nat)
    (srcAttrs : List String) : String × List LogMsg :=
  match obsLangCol with
  | none => (defaultLang, [])
  | some c =>
    match getCellS srcAttrs c with
    | none => (defaultLang, [])
    | some raw =>
      let sdmxLang := pyStrip raw
      match alookup t.languageMappings sdmxLang with
      | some lg => (lg, [])
      | none =>
        (defaultLang,
         [⟨.warning, "arelle:loadFromSdmxCsvUnknownLang", [sdmxLang, defaultLang]⟩])

/-- Observation-scope attributes from the current row (source lines
1266–1271). -/
def obsAttrsFold (obsAttributes : List (Nat × QN)) (srcAttrs : List String) :
    List (QN × String) :=
  obsAttributes.foldl (fun acc p =>
    match getCellS srcAttrs p.1 with
    | some v => updAssoc acc p.2 (pyStrip v)
    | none => acc) []

/-- Series-scope attributes (source lines 1275–1281): attribute-mapped
header names take their value from the series-attribute row, overriding
observation attributes; `seriesAttrValues[j]` past the end of that row
raises `IndexError`. -/
def seriesAttrFold (t : MapTables) (seriesAttrValues : List String) :
    List String → Nat → List (QN × String) → Except String (List (QN × String))
  | [], _, acc => .ok acc
  | a :: r, j, acc =>
    match alookup t.attributeMappings a with
    | some q =>
      match seriesAttrValues.get? j with
      | none => .error "IndexError: list index out of range"
      | some v =>
        if v ≠ "" then seriesAttrFold t seriesAttrValues r (j + 1) (updAssoc acc q (pyStrip v))
        else seriesAttrFold t seriesAttrValues r (j + 1) acc
    | none => seriesAttrFold t seriesAttrValues r (j + 1) acc

/-- The `xml:lang` attribute QName. -/
def qnXmlLang : QN := ⟨"http://www.w3.org/XML/1998/namespace", "lang"⟩

/-- The fact deduplication key of source line 1318. -/
def factKeyOf (host : Host) (qnameMeasure : QN) (contextID currentUnitId factLang : String) :
    FactKey :=
  (qnameMeasure, contextID, some currentUnitId,
   if host.isXbrlText qnameMeasure then some factLang else none)

/-- The attribute list passed to `createFact` (source lines 1341–1346). -/
def mkAttrs (host : Host) (qnameMeasure : QN) (factAttrs : List (QN × String))
    (decs precs : DecOrInf) (factLang : String) : List (AttrKey × AttrVal) :=
  (factAttrs.map (fun p => (AttrKey.qn p.1, AttrVal.str p.2))) ++
  (if host.isNumeric qnameMeasure then
    [(AttrKey.raw "decimals", .dec decs), (AttrKey.raw "precision", .dec precs)]
   else if host.isXbrlText qnameMeasure && factLang ≠ "" then
    [(AttrKey.qn qnXmlLang, .str factLang)]
   else [])

/-- Deduplication and fact emission (source lines 1306–1363): a present
`FactKey` skips the row — silently when the concept is numeric and the
stored value equals the new one, with a conflict warning when the concept
is numeric and it differs, silently when the concept is non-numeric; an
absent key emits the fact, counts it, and registers it in the
existing-facts index. -/
def dedupAndEmit (host : Host) (qnameMeasure : QN)
    (contextID currentUnitId factLang obsValue : String)
    (factAttrs : List (QN × String)) (st : LoadState) : LoadState :=
  let decPrec := decimalsPrecision obsValue
  let factKey := factKeyOf host qnameMeasure contextID currentUnitId factLang
  match klookup st.existingFacts factKey with
  | some ex =>
    if host.isNumeric qnameMeasure then
      if ex.eqStr obsValue then { st with numFactsSkipped := st.numFactsSkipped + 1 }
      else
        { st with
          log := st.log ++ [⟨.warning, "arelle:loadFromSdmxCsvDuplicateFactDifferentValue",
                             [contextID, currentUnitId, factLang, obsValue]⟩],
          numFactsSkipped := st.numFactsSkipped + 1 }
    else { st with numFactsSkipped := st.numFactsSkipped + 1 }
  | none =>
    let f : FactSpec :=
      ⟨qnameMeasure, contextID, currentUnitId,
       mkAttrs host qnameMeasure factAttrs decPrec.1 decPrec.2 factLang, obsValue⟩
    let xdtLog :=
      if host.hasXDT && !host.dimensionallyValid f then
        [(⟨.error, "arelle:loadFromSdmxXdtError", []⟩ : LogMsg)]
      else []
    { st with
      facts := st.facts ++ [f],
      numFactsLoaded := st.numFactsLoaded + 1,
      existingFacts := updAssoc st.existingFacts factKey (.str obsValue),
      log := st.log ++ xdtLog }

/-- The context-identifier format-value loop of source lines 1197–1204.
Each element of `dimCols` is a 6-tuple (built at source line 927), but
line 1199 unpacks it into **five** names, so the first iteration raises
`ValueError: too many values to unpack (expected 5)`; only an empty
`dimCols` completes the loop (leaving no values beyond entity and
period). -/
def cntxIdFormatValues : List DimCol → Except String (List (String × String))
  | [] => .ok []
  | _ :: _ => .error "ValueError: too many values to unpack (expected 5)"

/-- Processing of one observation row (source lines 1057–1363).  With an
active series key, dimension values come from the padded series-key row
(`None` cells beyond it) while observation attributes and language come
from the original row.  Errors are uncaught Python exceptions; in
particular every row that resolves a period reaches the line-1199
format-value loop with a non-empty `dimCols` (a period requires a
`TIME_PERIOD` dimension column) and raises `ValueError` there, before any
context or fact is created. -/
def processObs (host : Host) (ctx : RowCtx) (st : LoadState) (row : List String) :
    Except (String × LoadState) LoadState :=
  let cells : List (Option String) :=
    match st.seriesKeys with
    | some sk => sk.map some ++ List.replicate (ctx.header.length - sk.length) none
    | none => row.map some
  let srcAttrs : List String := row
  match processDimCols ctx.t cells ctx.dimCols [] none none none [] with
  | .skip plog =>
    .ok { st with log := st.log ++ plog, numFactsSkipped := st.numFactsSkipped + 1 }
  | .err e plog => .error (e, { st with log := st.log ++ plog })
  | .ok _vals pInst pStart pEnd plog =>
    let st1 := { st with log := st.log ++ plog }
    let periodOpt : Option PeriodSpec :=
      match pInst with
      | some d => some (.instant d)
      | none =>
        match pStart, pEnd with
        | some a, some b => some (.span a b)
        | _, _ => none
    match periodOpt with
    | none =>
      .ok { st1 with log := st1.log ++ [⟨.warning, "arelle:loadFromSdmxCsvMissingPeriod", []⟩],
                     numFactsSkipped := st1.numFactsSkipped + 1 }
    | some period =>
      match cntxIdFormatValues ctx.dimCols with
      | .error e => .error (e, st1)
      | .ok fmtVals =>
        let contextID :=
          formatCntxId (pyReplaceColon ctx.entityVal) period.periodId ctx.holes fmtVals
        let st2 :=
          if (alookup st1.contexts contextID).isSome then st1
          else { st1 with contexts := st1.contexts ++ [(contextID, period)] }
        match getCell cells ctx.obsValueCol with
        | none =>
          .ok { st2 with
                  log := st2.log ++ [⟨.warning, "arelle:loadFromSdmxCsvMissingObsValue", []⟩],
                  numFactsSkipped := st2.numFactsSkipped + 1 }
        | some rawObs =>
          let obsValue := pyStrip rawObs
          match (alookup ctx.t.measureMappings "OBS_VALUE").orElse
              (fun _ => ctx.measureCols.head?.map (·.qn)) with
          | none => .error ("IndexError: list index out of range", st2)
          | some qnameMeasure =>
            let unitRes := resolveUnit ctx.t ctx.defaultUnitId ctx.obsUnitCol cells
            let currentUnitId := unitRes.1
            let st3 := { st2 with log := st2.log ++ unitRes.2 }
            let st4 :=
              if st3.units.contains currentUnitId then st3
              else { st3 with units := st3.units ++ [currentUnitId] }
            let factAttrs0 := obsAttrsFold ctx.obsAttributes srcAttrs
            match (match ctx.seriesAttrs, ctx.seriesAttrValues with
                   | some sa, some sv => seriesAttrFold ctx.t sv sa 0 factAttrs0
                   | _, _ => .ok factAttrs0) with
            | .error e => .error (e, st4)
            | .ok factAttrs =>
              let langRes := resolveLang ctx.t ctx.defaultLang ctx.obsLangCol srcAttrs
              let st5 := { st4 with log := st4.log ++ langRes.2 }
              .ok (dedupAndEmit host qnameMeasure contextID currentUnitId langRes.1 obsValue
                    factAttrs st5)

/-- Dispatch of one data row (source lines 1046–1056): all-empty rows are
ignored; a row shorter than the header becomes the active series key; any
other row is an observation. -/
def processRow (host : Host) (ctx : RowCtx) (st : LoadState) (row : List String) :
    Except (String × LoadState) LoadState :=
  if row.all (fun c => c = "") then .ok st
  else if row.length < ctx.header.length then .ok { st with seriesKeys := some row }
  else processObs host ctx st row

/-- The data-row loop. -/
def foldRows (host : Host) (ctx : RowCtx) :
    LoadState → List (List String) → Except (String × LoadState) LoadState
  | st, [] => .ok st
  | st, row :: rest =>
    match processRow host ctx st row with
    | .error e => .error e
    | .ok st' => foldRows host ctx st' rest

/-- Result of a CSV load: the Python function returning `None`, returning
the populated `modelXbrl`, or raising an uncaught exception. -/
inductive RunResult
  | returnedNone (log : List LogMsg)
  | completed (st : LoadState)
  | crashed (log : List LogMsg) (err : String)
deriving DecidableEq, Repr

/-- The data rows (source lines 1015–1025): skip `headerLineNum + 1` rows,
then one more when a series-attribute row was captured; `none` is the
`StopIteration` path ("No data rows"). -/
def extractDataRows (hr : HeaderResult) (rows : List (List String)) :
    Option (List (List String)) :=
  let d := rows.drop (hr.headerLineNum + 1)
  match hr.seriesAttrValues with
  | some _ => match d with | [] => none | _ :: r => some r
  | none => some d

/-- The default unit id (source lines 979–981): `uPure`, overridden by
the first value of the unit mappings when any exist. -/
def defaultUnitIdOf (t : MapTables) : String :=
  match t.unitMappings with
  | [] => "uPure"
  | (_, u) :: _ => u

/-- A pre-existing fact of the host's fact population (source lines
992–997). -/
structure PreFact where
  qname : QN
  contextID : String
  unitID : Option String
  xmlLang : Option String
  isNumeric : Bool
  value : String

/-- The `existingFacts` index built from the host's facts (source lines
992–997). -/
def buildExistingFacts (facts : List PreFact) : List (FactKey × ExVal) :=
  facts.foldl (fun acc f =>
    updAssoc acc (f.qname, f.contextID, f.unitID, f.xmlLang)
      (if f.isNumeric then .str f.value else .presentTrue)) []

/-- End of a run that finished the data-row loop (source lines 1366–1373):
with at least one fact loaded the summary is passed to `info`, a name that
is neither a parameter of `_actual_loadFromSdmx` nor imported at line 53,
so line 1367 raises `NameError` instead of reporting; with zero facts
loaded the `warning` collaborator reports the no-facts summary and the
populated store is returned. -/
def finishRun (st : LoadState) : RunResult :=
  if 0 < st.numFactsLoaded then
    .crashed st.log "NameError: name info is not defined"
  else
    .completed { st with log := st.log ++
      [⟨.warning, "arelle:loadFromSdmxNoFactsLoaded", [toString st.numFactsSkipped]⟩] }

/-- Run the data-row loop and finish, or surface an uncaught exception. -/
def runRows (host : Host) (ctx : RowCtx) (st0 : LoadState) (dataRows : List (List String)) :
    RunResult :=
  match foldRows host ctx st0 dataRows with
  | .ok st => finishRun st
  | .error p => .crashed p.2.log p.1

/-- The per-file constants assembled after header detection and column
classification. -/
def mkRowCtx (t : MapTables) (header : List String) (hr : HeaderResult)
    (entityVal defaultLang : String) : RowCtx :=
  let cols := classifyColumns t header
  { t := t, header := header, dimCols := cols.dimCols,
    measureCols := cols.measureCols, obsAttributes := cols.obsAttributes,
    seriesAttrs := hr.seriesAttrs, seriesAttrValues := hr.seriesAttrValues,
    obsValueCol := (resolveObsValueCol cols header).toNat,
    holes := cntxIdHoles cols.dimCols,
    defaultUnitId := defaultUnitIdOf t,
    obsUnitCol := pyIndexOf header "OBS_UNIT",
    obsLangCol := pyIndexOf header "OBS_LANG",
    entityVal := entityVal, defaultLang := defaultLang }

/-- The load state at the start of the data-row loop. -/
def initState (preFacts : List PreFact) (initialContexts : List (String × PeriodSpec))
    (initialUnits : List String) : LoadState :=
  { existingFacts := buildExistingFacts preFacts,
    contexts := initialContexts, units := initialUnits }

/-- The CSV half of `_actual_loadFromSdmx` from the parsed CSV onward
(source lines 854–1382): header detection, column classification,
primary-measure resolution, context-id pattern and default-unit setup,
existing-fact indexing, the data-row loop, and the completion summary.
`entityVal` / `defaultLang` stand for the host-supplied entity identifier
and default language. -/
def runCsv (host : Host) (t : MapTables) (rows : List (List String))
    (entityVal defaultLang : String) (preFacts : List PreFact)
    (initialContexts : List (String × PeriodSpec)) (initialUnits : List String) : RunResult :=
  match findHeader t rows with
  | .error e => .crashed [] e
  | .ok hr =>
    if hr.missing ≠ [] then
      .returnedNone [⟨.error, "arelle:loadFromSdmxCsvError", hr.missing⟩]
    else match hr.header with
    | none => .returnedNone [⟨.error, "arelle:loadFromSdmxCsvNoHeader", []⟩]
    | some header =>
      if resolveObsValueCol (classifyColumns t header) header = -1 then
        .returnedNone [⟨.error, "arelle:loadFromSdmxCsvNoObsValue", []⟩]
      else
        match extractDataRows hr rows with
        | none => .returnedNone [⟨.warning, "arelle:loadFromSdmxCsvNoDataRows", []⟩]
        | some dataRows =>
          runRows host (mkRowCtx t header hr entityVal defaultLang)
            (initState preFacts initialContexts initialUnits) dataRows

/-- Facts of a completed run (empty otherwise). -/
def RunResult.factsOf : RunResult → List FactSpec
  | .completed st => st.facts
  | _ => []

/-- Loaded-facts counter of a completed run. -/
def RunResult.loadedCount : RunResult → Option Nat
  | .completed st => some st.numFactsLoaded
  | _ => none

/-- Skipped-facts counter of a completed run. -/
def RunResult.skippedCount : RunResult → Option Nat
  | .completed st => some st.numFactsSkipped
  | _ => none

/-- Context cache of a completed run (empty otherwise). -/
def RunResult.contextsOf : RunResult → List (String × PeriodSpec)
  | .completed st => st.contexts
  | _ => []

/-- Diagnostics reported by a run. -/
def RunResult.logOf : RunResult → List LogMsg
  | .completed st => st.log
  | .returnedNone l => l
  | .crashed l _ => l

namespace Ex

/-- Fixture namespace for the example taxonomy used in concrete runs. -/
def ns : String := "http://example.com/tax"

def qnObs : QN := ⟨ns, "ObsValue"⟩

def qnDim1 : QN := ⟨ns, "Dim1"⟩

def qnDom1 : QN := ⟨ns, "Dom1"⟩

def qnMemX : QN := ⟨ns, "MemX"⟩

def qnTime : QN := ⟨ns, "TimeDim"⟩

def qnStatus : QN := ⟨ns, "StatusAttr"⟩

/-- Mapping tables: one explicit dimension `DIM1` (member `X`), the typed
time dimension, the primary measure, one attribute, one unit, one
language. -/
def tbl : MapTables :=
  { dimMappings := [("DIM1", ⟨qnDim1, some qnDom1, none, false⟩),
                    ("TIME_PERIOD", ⟨qnTime, none, none, true⟩)],
    memMappings := [(qnDim1, [("X", qnMemX)])],
    measureMappings := [("OBS_VALUE", qnObs)],
    attributeMappings := [("OBS_STATUS", qnStatus)],
    unitMappings := [("EUR", "uEUR")],
    languageMappings := [("EN", "en")] }

/-- Host where every concept is numeric. -/
def hostNum : Host := { isNumeric := fun _ => true, isXbrlText := fun _ => false }

/-- Host where every concept is text. -/
def hostText : Host := { isNumeric := fun _ => false, isXbrlText := fun _ => true }

/-- The claim C2 scenario: a header and two data rows with identical
dimension values and periods, `OBS_VALUE` 100 then 200. -/
def rows100200 : List (List String) :=
  [["DIM1", "TIME_PERIOD", "OBS_VALUE"],
   ["X", "2020-01-01", "100"],
   ["X", "2020-01-01", "200"]]

def c2run : RunResult := runCsv hostNum tbl rows100200 "ent" "en" [] [] []

/-- The claim C5 scenario: a data row with unknown `OBS_UNIT` and
`OBS_LANG` codes (the all-empty second row is consumed by the
series-attribute probe). -/
def rows5 : List (List String) :=
  [["DIM1", "TIME_PERIOD", "OBS_VALUE", "OBS_UNIT", "OBS_LANG"],
   ["", "", "", "", ""],
   ["X", "2020-01-01", "7", "XXX", "ZZ"]]

def c5run : RunResult := runCsv hostNum tbl rows5 "ent" "en" [] [] []

/-- The claim C3 scenario: a `TIME_PERIOD` value `2021-07`. -/
def rowsJuly : List (List String) :=
  [["DIM1", "TIME_PERIOD", "OBS_VALUE"],
   ["", "", ""],
   ["X", "2021-07", "5"]]

def c3run : RunResult := runCsv hostNum tbl rowsJuly "ent" "en" [] [] []

/-- The claim C3 unsupported-shape scenario: a single `2021-Q1` row. -/
def rowsQ1 : List (List String) :=
  [["DIM1", "TIME_PERIOD", "OBS_VALUE"],
   ["", "", ""],
   ["X", "2021-Q1", "5"]]

def c3runQ1 : RunResult := runCsv hostNum tbl rowsQ1 "ent" "en" [] [] []

/-- Header-only input: a run that completes with zero facts. -/
def rowsHdrOnly : List (List String) := [["DIM1", "TIME_PERIOD", "OBS_VALUE"]]

def c1run : RunResult := runCsv hostNum tbl rowsHdrOnly "ent" "en" [] [] []

/-- C6 fixture: a measure column not named `OBS_VALUE`. -/
def qnVal : QN := ⟨ns, "Val"⟩

def tbl6 : MapTables :=
  { dimMappings := [("DIM1", ⟨qnDim1, some qnDom1, none, false⟩)],
    memMappings := [(qnDim1, [("X", qnMemX)])],
    measureMappings := [("VAL", qnVal)] }

def hdr6 : List String := ["DIM1", "VAL"]

def c6run : RunResult := runCsv hostNum tbl6 [hdr6, ["X", "7"]] "ent" "en" [] [] []

/-- C7 fixture: header with a dimension and the primary measure, no
attribute columns; the row after the header is empty under the dimension
and non-empty under the measure. -/
def hdr7 : List String := ["DIM1", "OBS_VALUE"]

def row7 : List String := ["", "5"]

/-- C2-text fixture: a load state whose existing-facts index already holds
the incoming observation's key (text measure, with language), with stored
value `"A"`. -/
def stTextDup : LoadState :=
  ⟨none, [], [], [((qnObs, "c", some "u", some "en"), .str "A")], [], 0, 0, []⟩

/-- A minimal input whose single data row would become a fact: a header,
an all-empty probe row (excluded from the data rows), and one complete
observation row. -/
def rowsOneObs : List (List String) :=
  [["DIM1", "TIME_PERIOD", "OBS_VALUE"],
   ["", "", ""],
   ["X", "2020-01-01", "7"]]

def oneObsRun : RunResult := runCsv hostNum tbl rowsOneObs "ent" "en" [] [] []

/-- C2 witness fixture: a load state whose existing-facts index already
holds the key of the incoming observation, with stored value `"100"`. -/
def stDup : LoadState :=
  ⟨none, [], [], [((qnObs, "c", some "u", none), .str "100")], [], 0, 0, []⟩

/-- C8 fixture: two dimension columns, in the two possible column orders. -/
def dimColA : DimCol := ⟨0, "FREQ", ⟨ns, "FreqDim"⟩, none, none, true⟩

def dimColB : DimCol := ⟨1, "REF_AREA", ⟨ns, "AreaDim"⟩, none, none, true⟩

end Ex

end Sdmx

namespace RtOpts

/-- A runtime option value (`RuntimeOptionValue = bool | int | str | None`,
extended with the non-scalar fields modelled opaquely as strings). -/
inductive OptionValue
  | noneV
  | boolV (b : Bool)
  | intV (n : Int)
  | strV (s : String)
deriving DecidableEq, Repr

/-- Python truthiness of an option value. -/
def truthy : OptionValue → Bool
  | .noneV => false
  | .boolV b => b
  | .intV n => n ≠ 0
  | .strV s => s ≠ ""

/-- The field names of the `RuntimeOptions` dataclass (source lines
28–147), i.e. the instance attributes present on every constructed object
(`pluginOptions` is an `InitVar`, not a field). -/
def baseOptionNames : List String :=
  ["_initialized", "strictOptions", "abortOnMajorError", "about", "anchFile",
   "arcroleTypesFile", "betaObjectModel", "cacheDirectory", "calFile", "calcDecimals",
   "calcDeduplicate", "calcPrecision", "calcs", "collectProfileStats", "conceptsFile",
   "deduplicateFacts", "diagnostics", "diffFile", "dimFile", "disablePersistentConfig",
   "disableRtl", "disclosureSystemName", "DTSFile", "entrypointFile", "factListCols",
   "factTableCols", "factTableFile", "factsFile", "formulaAction",
   "formulaAsserResultCounts", "formulaCacheSize", "formulaCallExprCode",
   "formulaCallExprEval", "formulaCallExprResult", "formulaCallExprSource",
   "formulaCompileOnly", "formulaFormulaRules", "formulaParamExprResult",
   "formulaParamInputValue", "formulaRunIDs", "formulaSatisfiedAsser",
   "formulaUnmessagedUnsatisfiedAsser", "formulaUnsatisfiedAsser",
   "formulaUnsatisfiedAsserError", "formulaVarExpressionCode",
   "formulaVarExpressionEvaluation", "formulaVarExpressionResult",
   "formulaVarExpressionSource", "formulaVarFilterWinnowing", "formulaVarFiltersResult",
   "formulaVarSetExprEval", "formulaVarSetExprResult", "formulaVarsOrder", "formulaeFile",
   "httpUserAgent", "httpsRedirectCache", "importFiles", "infosetValidate",
   "internetConnectivity", "internetLogDownloads", "internetRecheck", "internetTimeout",
   "keepOpen", "labelLang", "labelRole", "logCodeFilter", "logFile", "logFileMode",
   "logFormat", "logLevel", "logLevelFilter", "logRefObjectProperties", "logTextMaxLength",
   "monitorParentProcess", "noCertificateCheck", "outputAttribution",
   "packageManifestName", "packages", "parameterSeparator", "parameters", "password",
   "plugins", "preFile", "proxy", "redirectFallbacks", "relationshipCols",
   "roleTypesFile", "rssReport", "rssReportCols", "saveDeduplicatedInstance",
   "showEnvironment", "showOptions", "skipDTS", "skipLoading", "statusPipe", "tableFile",
   "testReport", "testReportCols", "testcaseFilters", "testcaseResultOptions",
   "testcaseResultsCaptureWarnings", "timeVariableSetEvaluation", "uiLang", "username",
   "utrUrl", "utrValidate", "validate", "validateDuplicateFacts", "validateEFM",
   "validateEFMCalcTree", "validateHMRC", "validateTestcaseSchema", "validateUK",
   "versReportFile", "viewArcrole", "viewFile", "webserver", "xdgConfigHome"]

/-- A constructed `RuntimeOptions` object: the base dataclass fields with
their values, and the plugin-applied extra attributes (empty at
construction, populated only by `__post_init__`'s `setattr` loop). -/
structure RuntimeOptions where
  base : List (String × OptionValue)
  extra : List (String × OptionValue) := []
deriving DecidableEq, Repr

/-- Attribute read (base fields, then plugin attributes; `None` default
mirrors the values relevant to `__post_init__`). -/
def RuntimeOptions.get (o : RuntimeOptions) (n : String) : OptionValue :=
  match Sdmx.alookup o.base n with
  | some v => v
  | none =>
    match Sdmx.alookup o.extra n with
    | some v => v
    | none => .noneV

/-- `hasattr(self, optionName)` on a constructed object. -/
def RuntimeOptions.hasattrB (o : RuntimeOptions) (n : String) : Bool :=
  (Sdmx.alookup o.base n).isSome || (Sdmx.alookup o.extra n).isSome

/-- `setattr(self, name, value)`: an existing base field is overwritten in
place, any other name becomes (or updates) an instance attribute. -/
def RuntimeOptions.setattrB (o : RuntimeOptions) (n : String) (v : OptionValue) :
    RuntimeOptions :=
  if (Sdmx.alookup o.base n).isSome then { o with base := Sdmx.updAssoc o.base n v }
  else { o with extra := Sdmx.updAssoc o.extra n v }

/-- The fields tested by the `webserver` incompatibility check (source
lines 210–216). -/
def webserverConflictFields : List String :=
  ["entrypointFile", "importFiles", "diffFile", "versReportFile", "factsFile",
   "factListCols", "factTableFile", "factTableCols", "relationshipCols", "conceptsFile",
   "preFile", "tableFile", "calFile", "dimFile", "anchFile", "formulaeFile",
   "viewArcrole", "viewFile", "roleTypesFile", "arcroleTypesFile"]

/-- `RuntimeOptions.__post_init__` (source lines 186–218): when
`pluginOptions` is truthy, collect the (sorted) plugin keys that already
exist as attributes and raise `RuntimeOptionsException` before applying
any of them; otherwise apply every plugin option via `setattr`; then the
`Incorrect arguments`, webserver-availability and webserver-conflict
checks; finally `_initialized = True`.  An error carries the object state
at the moment the exception is raised. -/
def postInit (o : RuntimeOptions) (pluginOptions : Option (List (String × OptionValue)))
    (hasWebServer : Bool) : Except (String × RuntimeOptions) RuntimeOptions :=
  let po := pluginOptions.getD []
  match (if po ≠ [] then
          let existingBaseOptions :=
            ((po.map Prod.fst).filter (fun n => o.hasattrB n)).insertionSort (· ≤ ·)
          if existingBaseOptions ≠ [] then
            Except.error ("Provided plugin options already exist as base options", o)
          else
            Except.ok (po.foldl (fun acc p => acc.setattrB p.1 p.2) o)
        else Except.ok o : Except (String × RuntimeOptions) RuntimeOptions) with
  | .error e => .error e
  | .ok o1 =>
    if o1.get "entrypointFile" = .noneV ∧ ¬truthy (o1.get "proxy") ∧
        ¬truthy (o1.get "plugins") ∧ po = [] ∧ ¬truthy (o1.get "webserver") then
      .error ("Incorrect arguments", o1)
    else if truthy (o1.get "webserver") ∧ ¬hasWebServer then
      .error ("Webserver option requires webserver module", o1)
    else if truthy (o1.get "webserver") ∧
        webserverConflictFields.any (fun n => truthy (o1.get n)) then
      .error ("Incorrect arguments with webserver", o1)
    else .ok (o1.setattrB "_initialized" (.boolV true))

/-- Dataclass defaults: every field `None` except `_initialized = False`,
`strictOptions = True`, `betaObjectModel = False`. -/
def defaultFor (n : String) : OptionValue :=
  if n = "_initialized" then .boolV false
  else if n = "strictOptions" then .boolV true
  else if n = "betaObjectModel" then .boolV false
  else .noneV

/-- A freshly `__init__`-ed object with all fields at their defaults. -/
def defaultOptions : RuntimeOptions :=
  { base := baseOptionNames.map (fun n => (n, defaultFor n)) }

end RtOpts

namespace Sdmx

/-! ### Helper lemmas -/

theorem ne_dot_of_isDigit {c : Char} (h : c.isDigit = true) : c ≠ '.' := by
  intro e
  subst e
  exact absurd h (by decide)

theorem digits_of_pyIsDigit {a : List Char} (h : pyIsDigit a = true) :
    ∀ c ∈ a, c.isDigit = true := by
  have := (Bool.and_eq_true _ _).mp h
  exact fun c hc => List.all_eq_true.mp this.2 c hc

theorem pyIsDigit_append {a b : List Char} (ha : pyIsDigit a = true)
    (hb : pyIsDigit b = true) : pyIsDigit (a ++ b) = true := by
  unfold pyIsDigit at *
  have ha' := (Bool.and_eq_true _ _).mp ha
  have hb' := (Bool.and_eq_true _ _).mp hb
  refine (Bool.and_eq_true _ _).mpr ⟨?_, ?_⟩
  · cases a with
    | nil => simp at ha'
    | cons c r => simp
  · rw [List.all_eq_true] at *
    intro c hc
    rcases List.mem_append.mp hc with h | h
    · exact ha'.2 c h
    · exact hb'.2 c h

theorem removeFirstDot_of_digits {a : List Char} (h : ∀ c ∈ a, c.isDigit = true) :
    removeFirstDot a = a := by
  induction a with
  | nil => rfl
  | cons c r ih =>
    have hc : c ≠ '.' := ne_dot_of_isDigit (h c (List.mem_cons_self _ _))
    simp only [removeFirstDot, if_neg hc]
    rw [ih (fun x hx => h x (List.mem_cons_of_mem _ hx))]

theorem hasDot_of_digits {a : List Char} (h : ∀ c ∈ a, c.isDigit = true) :
    hasDot a = false := by
  induction a with
  | nil => rfl
  | cons c r ih =>
    have hc : c ≠ '.' := ne_dot_of_isDigit (h c (List.mem_cons_self _ _))
    simp only [hasDot, Bool.or_eq_false_iff]
    exact ⟨by simpa using hc, ih (fun x hx => h x (List.mem_cons_of_mem _ hx))⟩

theorem removeFirstDot_append_digits {a : List Char} (b : List Char)
    (h : ∀ c ∈ a, c.isDigit = true) : removeFirstDot (a ++ '.' :: b) = a ++ b := by
  induction a with
  | nil => simp [removeFirstDot]
  | cons c r ih =>
    have hc : c ≠ '.' := ne_dot_of_isDigit (h c (List.mem_cons_self _ _))
    show (if c = '.' then r ++ '.' :: b else c :: removeFirstDot (r ++ '.' :: b)) = c :: (r ++ b)
    rw [if_neg hc, ih (fun x hx => h x (List.mem_cons_of_mem _ hx))]

theorem afterFirstDot_append_digits {a : List Char} (b : List Char)
    (h : ∀ c ∈ a, c.isDigit = true) : afterFirstDot (a ++ '.' :: b) = b := by
  induction a with
  | nil => simp [afterFirstDot]
  | cons c r ih =>
    have hc : c ≠ '.' := ne_dot_of_isDigit (h c (List.mem_cons_self _ _))
    show (if c = '.' then r ++ '.' :: b else afterFirstDot (r ++ '.' :: b)) = b
    rw [if_neg hc, ih (fun x hx => h x (List.mem_cons_of_mem _ hx))]

theorem hasDot_append_cons (a b : List Char) : hasDot (a ++ '.' :: b) = true := by
  induction a with
  | nil => simp [hasDot]
  | cons c r ih => simp [hasDot, ih]

/-! ### Claim C4 -/

/-- C4, counterexample: the claim asserts that the signed value `"-7"`
yields decimals=0 and precision=1, but `"-7".replace('.','',1).isdigit()`
is false (`isdigit` rejects the sign), so both are the `INF` sentinel. -/
theorem c4_counterexample :
    decimalsPrecision "-7" = (.inf, .inf) ∧
    decimalsPrecision "-7" ≠ (.val 0, .val 1) := by
  decide

/-- C4, amended: for a plain **unsigned** decimal — digits with at most
one dot — decimals is the count of digits after the point (0 when there is
no point) and precision the count of digits excluding the point
(`"12.50"` gives 2/4, `"7"` gives 0/1); a signed value such as `"-7"`, and
every other string whose dot-stripped form is not all digits, yields the
unbounded `INF` sentinel for both. -/
theorem c4_amended_theorem :
    (∀ a b : List Char, pyIsDigit a = true → pyIsDigit b = true →
      decimalsPrecision ⟨a ++ '.' :: b⟩ = (.val b.length, .val (a.length + b.length))) ∧
    (∀ a : List Char, pyIsDigit a = true →
      decimalsPrecision ⟨a⟩ = (.val 0, .val a.length)) ∧
    (∀ (c : Char) (s : List Char), c = '-' ∨ c = '+' →
      decimalsPrecision ⟨c :: s⟩ = (.inf, .inf)) ∧
    decimalsPrecision "12.50" = (.val 2, .val 4) ∧
    decimalsPrecision "7" = (.val 0, .val 1) := by
  refine ⟨?_, ?_, ?_, by decide, by decide⟩
  · intro a b ha hb
    have hda := digits_of_pyIsDigit ha
    unfold decimalsPrecision
    simp only [removeFirstDot_append_digits b hda, afterFirstDot_append_digits b hda,
      hasDot_append_cons, pyIsDigit_append ha hb, if_pos rfl, if_true]
    simp [List.length_append]
  · intro a ha
    have hda := digits_of_pyIsDigit ha
    unfold decimalsPrecision
    simp [removeFirstDot_of_digits hda, hasDot_of_digits hda, ha]
  · intro c s hc
    have hcd : c.isDigit = false := by
      rcases hc with h | h <;> subst h <;> decide
    have hne : c ≠ '.' := by
      rcases hc with h | h <;> subst h <;> decide
    unfold decimalsPrecision
    simp [removeFirstDot, if_neg hne, pyIsDigit, hcd]

/-- C4, witness: the amended theorem applied to `"12.50"`. -/
theorem c4_witness :
    pyIsDigit ['1', '2'] = true ∧ pyIsDigit ['5', '0'] = true ∧
    decimalsPrecision ⟨['1', '2'] ++ '.' :: ['5', '0']⟩ = (.val 2, .val 4) :=
  ⟨by decide, by decide, c4_amended_theorem.1 ['1', '2'] ['5', '0'] (by decide) (by decide)⟩

/-! ### Claim C6 -/

/-- C6: the header `["DIM1", "VAL"]` has no `OBS_VALUE` cell but has one
measure column (`VAL`), yet the primary-measure column is **not** resolved
by positional fallback — `resolveObsValueCol` stays `-1` because the
fallback block is guarded by `obsValueCol == -1 and not measureCols`
(making its `measureCols[0][0]` assignment dead code, contradicting the
comment "if no OBS_VALUE, assume first measure is primary measure") — and
the whole load aborts with `arelle:loadFromSdmxCsvNoObsValue`. -/
theorem c6_theorem :
    (classifyColumns Ex.tbl6 Ex.hdr6).measureCols = [⟨1, "VAL", Ex.qnVal⟩] ∧
    resolveObsValueCol (classifyColumns Ex.tbl6 Ex.hdr6) Ex.hdr6 = -1 ∧
    Ex.c6run = .returnedNone [⟨.error, "arelle:loadFromSdmxCsvNoObsValue", []⟩] := by
  decide

/-! ### Claim C10 -/

theorem mkSeriesResult_header (header row : List String) (i : Nat) (p : Bool × Bool) :
    (mkSeriesResult header row i p).header = some header := by
  unfold mkSeriesResult
  split <;> rfl

theorem findHeaderGo_found (t : MapTables) (rest : List (List String)) (i hln : Nat)
    (H : List String) (hr : HeaderResult)
    (h : findHeaderGo t rest i (some H) hln = .ok hr) : hr.header = some H := by
  cases rest with
  | nil =>
    simp only [findHeaderGo, Except.ok.injEq] at h
    rw [← h]
  | cons row rs =>
    have e : findHeaderGo t (row :: rs) i (some H) hln =
        (match seriesAttrCheck t H row with
         | .error e => .error e
         | .ok p => .ok (mkSeriesResult H row i p)) := rfl
    rw [e] at h
    cases hsc : seriesAttrCheck t H row with
    | error e2 =>
      rw [hsc] at h
      exact absurd h (by simp)
    | ok p =>
      rw [hsc] at h
      simp only [Except.ok.injEq] at h
      rw [← h]
      exact mkSeriesResult_header H row i p

/-- C10: a row with no non-empty cell does not contain `OBS_VALUE` but
vacuously satisfies header-detection rule (b) (every non-empty cell
resolves to a known name), so whenever such a row comes first and header
detection completes, that row — not any later qualifying row — is the
header. -/
theorem c10_theorem (t : MapTables) (row : List String) (rest : List (List String))
    (hr : HeaderResult) (hemp : ∀ c ∈ row, c = "")
    (h : findHeader t (row :: rest) = .ok hr) :
    ("OBS_VALUE" ∉ row ∧ ruleB t row = true) ∧ hr.header = some row := by
  have hnotin : "OBS_VALUE" ∉ row := by
    intro hmem
    have := hemp _ hmem
    simp at this
  have hallb : ruleB t row = true := by
    rw [ruleB, List.all_eq_true]
    intro c hc
    simp [hemp c hc]
  refine ⟨⟨hnotin, hallb⟩, ?_⟩
  have e : findHeader t (row :: rest) =
      (if "OBS_VALUE" ∈ row then findHeaderGo t rest 1 (some row) 0
       else if ruleB t row then findHeaderGo t rest 1 (some row) 0
       else if freqFirst row then
         .ok ⟨none, none, none, 0, ["Unable to determine header row for SDMX-CSV file."]⟩
       else findHeaderGo t rest 1 none 0) := rfl
  rw [e, if_neg hnotin, if_pos hallb] at h
  exact findHeaderGo_found t rest 1 0 row hr h

/-- C10, witness: an all-empty first row followed by the intended header
`["DIM1", "OBS_VALUE"]`; the all-empty row is taken as the header. -/
theorem c10_witness :
    ∃ hr, findHeader Ex.tbl [["", ""], ["DIM1", "OBS_VALUE"]] = .ok hr ∧
      hr.header = some ["", ""] := by
  refine ⟨⟨some ["", ""], some ["", ""], some ["DIM1", "OBS_VALUE"], 1, []⟩, by decide, ?_⟩
  exact (c10_theorem Ex.tbl ["", ""] [["DIM1", "OBS_VALUE"]] _ (by decide) (by decide)).2

/-! ### Claim C2, counterexample -/

/-- C2, counterexample: the claim's scenario — a header and two rows with
identical dimension values and periods, `OBS_VALUE` 100 then 200 — does
not leave one fact with value 100: the row carrying 100 is consumed by the
series-attribute probe (it is inside the `headerLineNum + 1` rows skipped
before data processing), and the remaining 200 row raises
`ValueError: too many values to unpack (expected 5)` at the line-1199
context-identifier loop before `createFact` is ever reached — the load
crashes with no facts at all and no conflict warning. -/
theorem c2_counterexample :
    Ex.c2run = .crashed [] "ValueError: too many values to unpack (expected 5)" ∧
    Ex.c2run.factsOf = [] ∧
    "arelle:loadFromSdmxCsvDuplicateFactDifferentValue" ∉
      Ex.c2run.logOf.map (fun m => m.code) := by
  decide

/-! ### Claim C5, counterexample -/

/-- C5, counterexample: a data row whose `OBS_UNIT` code `XXX` and
`OBS_LANG` code `ZZ` have no mapping entries is neither skipped nor
warned about: the row raises `ValueError` at the line-1199
context-identifier loop before the per-row unit and language resolution
(source lines 1246–1253 and 1294–1303) is reached, so the load crashes
with no unknown-unit or unknown-language warning and no fact. -/
theorem c5_counterexample :
    Ex.c5run = .crashed [] "ValueError: too many values to unpack (expected 5)" ∧
    Ex.c5run.factsOf = [] ∧
    "arelle:loadFromSdmxCsvUnknownUnit" ∉ Ex.c5run.logOf.map (fun m => m.code) ∧
    "arelle:loadFromSdmxCsvUnknownLang" ∉ Ex.c5run.logOf.map (fun m => m.code) := by
  decide

/-! ### Claim C1 -/

/-- C1: the completion summary is only half real.  A run that finishes
the data-row loop with zero facts loaded reports the non-fatal warning
summary and returns the populated store — concretely, the header-only
input.  With at least one fact loaded, however, finishing the loop
raises `NameError` instead of reporting: line 1367 passes the summary to
`info`, a name that is neither a parameter of `_actual_loadFromSdmx` nor
imported.  And no input even reaches that branch, because an observation
that would become a fact already raises `ValueError` at the line-1199
unpacking — concretely, the one-observation input crashes with no facts
loaded and no summary at all. -/
theorem c1_theorem :
    finishRun { numFactsLoaded := 1 } =
      .crashed [] "NameError: name info is not defined" ∧
    Ex.c1run = .completed
      { log := [⟨.warning, "arelle:loadFromSdmxNoFactsLoaded", ["0"]⟩] } ∧
    Ex.oneObsRun = .crashed [] "ValueError: too many values to unpack (expected 5)" := by
  decide

/-! ### Claim C2, amended -/

/-- C2, amended: at the deduplication step as the code writes it (source
lines 1318–1337) an observation whose `FactKey` is already present is
never emitted and never overwrites the existing entry — the skip is
counted, and a conflict warning is reported exactly when the measure
concept is numeric and the stored value differs (non-numeric duplicates
are always skipped silently).  No full run reaches that step, however:
the line-1199 context-identifier loop raises `ValueError` on every
observation first.  The two-row 100-then-200 scenario concretely: the row
carrying 100 (immediately after the header) is consumed by the
series-attribute probe and excluded from the data rows, and the remaining
200 row crashes the load at line 1199 — no fact at all remains. -/
theorem c2_amended_theorem :
    (∀ (host : Host) (qn : QN) (cid uid lang v : String) (fa : List (QN × String))
        (st : LoadState) (ex : ExVal),
      klookup st.existingFacts (factKeyOf host qn cid uid lang) = some ex →
      (dedupAndEmit host qn cid uid lang v fa st).facts = st.facts ∧
      (dedupAndEmit host qn cid uid lang v fa st).existingFacts = st.existingFacts ∧
      (dedupAndEmit host qn cid uid lang v fa st).numFactsLoaded = st.numFactsLoaded ∧
      (dedupAndEmit host qn cid uid lang v fa st).numFactsSkipped = st.numFactsSkipped + 1 ∧
      (dedupAndEmit host qn cid uid lang v fa st).log = st.log ++
        (if host.isNumeric qn && !ex.eqStr v then
          [⟨.warning, "arelle:loadFromSdmxCsvDuplicateFactDifferentValue", [cid, uid, lang, v]⟩]
         else [])) ∧
    (findHeader Ex.tbl Ex.rows100200 =
      .ok ⟨some ["DIM1", "TIME_PERIOD", "OBS_VALUE"], none, none, 1, []⟩ ∧
     extractDataRows ⟨some ["DIM1", "TIME_PERIOD", "OBS_VALUE"], none, none, 1, []⟩
        Ex.rows100200 = some [["X", "2020-01-01", "200"]] ∧
     Ex.c2run = .crashed [] "ValueError: too many values to unpack (expected 5)" ∧
     Ex.c2run.factsOf = []) ∧
    ((dedupAndEmit Ex.hostText Ex.qnObs "c" "u" "en" "B" [] Ex.stTextDup).numFactsSkipped = 1 ∧
     (dedupAndEmit Ex.hostText Ex.qnObs "c" "u" "en" "B" [] Ex.stTextDup).facts = [] ∧
     (dedupAndEmit Ex.hostText Ex.qnObs "c" "u" "en" "B" [] Ex.stTextDup).log = []) := by
  refine ⟨?_, by decide, by decide⟩
  intro host qn cid uid lang v fa st ex h
  unfold dedupAndEmit
  simp only [h]
  by_cases hn : host.isNumeric qn
  · by_cases he : ex.eqStr v
    · simp [hn, he]
    · simp [hn, he]
  · simp [hn]

/-- C2, witness: the deduplication clause applied at a numeric concept
with stored value `"100"` and new value `"200"`. -/
theorem c2_witness :
    ∃ st : LoadState,
      klookup st.existingFacts (factKeyOf Ex.hostNum Ex.qnObs "c" "u" "en") =
        some (.str "100") ∧
      (dedupAndEmit Ex.hostNum Ex.qnObs "c" "u" "en" "200" [] st).facts = st.facts ∧
      (dedupAndEmit Ex.hostNum Ex.qnObs "c" "u" "en" "200" [] st).log = st.log ++
        [⟨.warning, "arelle:loadFromSdmxCsvDuplicateFactDifferentValue",
          ["c", "u", "en", "200"]⟩] := by
  refine ⟨Ex.stDup, by decide, ?_, ?_⟩
  · exact (c2_amended_theorem.1 Ex.hostNum Ex.qnObs "c" "u" "en" "200" [] Ex.stDup
      (.str "100") (by decide)).1
  · have h := (c2_amended_theorem.1 Ex.hostNum Ex.qnObs "c" "u" "en" "200" [] Ex.stDup
      (.str "100") (by decide)).2.2.2.2
    simpa using h

/-! ### Claim C5, amended -/

/-- C5, amended: the per-row unit and language resolution as the code
writes it (source lines 1246–1253 and 1294–1303) does **not** skip a row
with an unknown `OBS_UNIT` (resp. `OBS_LANG`) code: it reports a warning
and falls back to the default unit id (resp. the run's default language).
No data row reaches that resolution, however: the line-1199
context-identifier loop raises `ValueError` first — concretely, the
unknown-code row crashes the load with no warning and no fact. -/
theorem c5_amended_theorem :
    (∀ (t : MapTables) (d : String) (c : Nat) (cells : List (Option String)) (raw : String),
      getCell cells c = some raw → alookup t.unitMappings (pyStrip raw) = none →
      resolveUnit t d (some c) cells =
        (d, [⟨.warning, "arelle:loadFromSdmxCsvUnknownUnit", [pyStrip raw, d]⟩])) ∧
    (∀ (t : MapTables) (d : String) (c : Nat) (row : List String) (raw : String),
      getCellS row c = some raw → alookup t.languageMappings (pyStrip raw) = none →
      resolveLang t d (some c) row =
        (d, [⟨.warning, "arelle:loadFromSdmxCsvUnknownLang", [pyStrip raw, d]⟩])) ∧
    (Ex.c5run = .crashed [] "ValueError: too many values to unpack (expected 5)" ∧
     Ex.c5run.factsOf = []) := by
  refine ⟨?_, ?_, by decide⟩
  · intro t d c cells raw hc hl
    simp only [resolveUnit, hc, hl]
  · intro t d c row raw hc hl
    simp only [resolveLang, hc, hl]

/-- C5, witness: the unit and language clauses applied to a one-cell row
with unmapped codes. -/
theorem c5_witness :
    resolveUnit Ex.tbl "uEUR" (some 0) [some "XXX"] =
      ("uEUR", [⟨.warning, "arelle:loadFromSdmxCsvUnknownUnit", ["XXX", "uEUR"]⟩]) ∧
    resolveLang Ex.tbl "en" (some 0) ["ZZ"] =
      ("en", [⟨.warning, "arelle:loadFromSdmxCsvUnknownLang", ["ZZ", "en"]⟩]) := by
  constructor
  · have h := c5_amended_theorem.1 Ex.tbl "uEUR" 0 [some "XXX"] "XXX" (by decide) (by decide)
    simpa using h
  · have h := c5_amended_theorem.2.1 Ex.tbl "en" 0 ["ZZ"] "ZZ" (by decide) (by decide)
    simpa using h

/-! ### Claim C3 -/

/-- C3: a bare `YYYY-MM` `TIME_PERIOD` value does not become a month-span
Duration.  After the "attempting to parse as duration" warning and a
successful `int(year)`, `int(month)` and `datetime.date(year, month, 1)`,
line 1144 evaluates `monthrange` — a name the module never imports — and
the resulting `NameError` is not caught by the `except ValueError` of line
1145: the whole load crashes, producing no duration context and no fact
(concretely for `"2021-07"`).  Only the claim's other half is real, and
only at row level: a non-`YYYY-MM` shape such as `"2021-Q1"` skips just
its own observation with warnings, and a run containing only such rows
still completes. -/
theorem c3_theorem :
    parseTimePeriodRaw "2021-07" =
      (.crash "NameError: name monthrange is not defined",
       [tpWarn "2021-07" "attempting to parse as duration"]) ∧
    Ex.c3run = .crashed [tpWarn "2021-07" "attempting to parse as duration"]
      "NameError: name monthrange is not defined" ∧
    Ex.c3run.factsOf = [] ∧ Ex.c3run.contextsOf = [] ∧
    parseTimePeriodRaw "2021-Q1" =
      (.fail, [tpWarn "2021-Q1" "attempting to parse as duration",
               tpWarn "2021-Q1" "skipping fact"]) ∧
    Ex.c3runQ1 = .completed
      { numFactsSkipped := 1,
        log := [tpWarn "2021-Q1" "attempting to parse as duration",
                tpWarn "2021-Q1" "skipping fact",
                ⟨.warning, "arelle:loadFromSdmxNoFactsLoaded", ["1"]⟩] } := by
  decide

/-! ### Claim C7, counterexample -/

/-- C7, counterexample: under the header `["DIM1", "OBS_VALUE"]` (one
dimension column, one measure column, no attribute columns) the row
`["", "5"]` is recorded as a series-attribute row — its non-empty cell sits
under the **measure** column — although the claim's condition (a non-empty
cell under an attribute-mapped column) does not hold. -/
theorem c7_counterexample :
    findHeader Ex.tbl [Ex.hdr7, Ex.row7] =
      .ok ⟨some Ex.hdr7, some Ex.hdr7, some Ex.row7, 1, []⟩ ∧
    ¬ claimSeriesAttrQualifies Ex.tbl Ex.hdr7 Ex.row7 := by
  decide

/-! ### Claim C7, amended -/

theorem seriesAttrGo_spec (t : MapTables) :
    ∀ (row header : List String) (hasV : Bool), row.length ≤ header.length →
    (seriesAttrGo t row header hasV = .ok (true, true) ↔
      ((∀ p ∈ row.zip header, isDimName t p.2 = true → p.1 = "") ∧
       (hasV = true ∨ ∃ p ∈ row.zip header, isDimName t p.2 = false ∧ p.1 ≠ ""))) := by
  intro row
  induction row with
  | nil =>
    intro header hasV _
    cases hasV <;> simp [seriesAttrGo]
  | cons c cs ih =>
    intro header hasV hlen
    cases header with
    | nil => simp at hlen
    | cons h hs =>
      have hlen' : cs.length ≤ hs.length := by simpa using hlen
      by_cases hd : (alookup t.dimMappings h).isSome = true
      · by_cases hc : c = ""
        · subst hc
          rw [show seriesAttrGo t ("" :: cs) (h :: hs) hasV = seriesAttrGo t cs hs hasV from by
            simp [seriesAttrGo, hd]]
          rw [ih hs hasV hlen']
          simp [isDimName, hd]
        · rw [show seriesAttrGo t (c :: cs) (h :: hs) hasV = .ok (false, hasV) from by
            simp [seriesAttrGo, hd, hc]]
          simp [isDimName, hd, hc]
      · by_cases hc : c = ""
        · subst hc
          rw [show seriesAttrGo t ("" :: cs) (h :: hs) hasV = seriesAttrGo t cs hs hasV from by
            simp [seriesAttrGo, hd]]
          rw [ih hs hasV hlen']
          simp [isDimName, hd]
        · rw [show seriesAttrGo t (c :: cs) (h :: hs) hasV = seriesAttrGo t cs hs true from by
            simp [seriesAttrGo, hd, hc]]
          rw [ih hs true hlen']
          simp [isDimName, hd, hc]
          intro _
          exact Or.inr (Or.inl (Option.not_isSome_iff_eq_none.mp (by simpa using hd)))

/-- C7, amended: the probe row after the header is recorded as a
series-attribute row iff every cell under a **dimension-mapped** header
column is empty and at least one cell under a **non-dimension-mapped**
header position (measure-mapped, attribute-mapped, unmapped, or empty
name) is non-empty — not only attribute-mapped columns, as claimed (for
probe rows no longer than the header; a longer row raises `IndexError`).
When it qualifies its values are recorded as Series-scope attribute values
keyed by header name (names from the header row), it is excluded from the
data rows, and the reader skips one further row; when it does not qualify
it is still excluded from the data rows. -/
theorem c7_amended_theorem :
    (∀ (t : MapTables) (header row : List String), row.length ≤ header.length →
      (seriesAttrCheck t header row = .ok (true, true) ↔
        codeSeriesAttrQualifies t header row)) ∧
    (∀ (t : MapTables) (hdr row : List String) (rest : List (List String)) (p : Bool × Bool),
      "OBS_VALUE" ∈ hdr → seriesAttrCheck t hdr row = .ok p →
      findHeader t (hdr :: row :: rest) = .ok (mkSeriesResult hdr row 1 p) ∧
      ((mkSeriesResult hdr row 1 p).seriesAttrValues = some row ↔ p = (true, true)) ∧
      ((mkSeriesResult hdr row 1 p).seriesAttrs = some hdr ↔ p = (true, true)) ∧
      extractDataRows (mkSeriesResult hdr row 1 p) (hdr :: row :: rest) =
        (if p = (true, true) then (if rest = [] then none else some (rest.drop 1))
         else some rest)) := by
  constructor
  · intro t header row hlen
    unfold seriesAttrCheck codeSeriesAttrQualifies
    rw [seriesAttrGo_spec t row header false hlen]
    simp
  · intro t hdr row rest p hmem hp
    have hfh : findHeader t (hdr :: row :: rest) = .ok (mkSeriesResult hdr row 1 p) := by
      have e1 : findHeader t (hdr :: row :: rest) =
          (if "OBS_VALUE" ∈ hdr then findHeaderGo t (row :: rest) 1 (some hdr) 0
           else if ruleB t hdr then findHeaderGo t (row :: rest) 1 (some hdr) 0
           else if freqFirst hdr then
             .ok ⟨none, none, none, 0, ["Unable to determine header row for SDMX-CSV file."]⟩
           else findHeaderGo t (row :: rest) 1 none 0) := rfl
      rw [e1, if_pos hmem]
      have e2 : findHeaderGo t (row :: rest) 1 (some hdr) 0 =
          (match seriesAttrCheck t hdr row with
           | .error e => .error e
           | .ok p => .ok (mkSeriesResult hdr row 1 p)) := rfl
      rw [e2, hp]
    refine ⟨hfh, ?_, ?_, ?_⟩ <;>
      · obtain ⟨a, b⟩ := p
        cases a <;> cases b <;> cases rest <;>
          simp [mkSeriesResult, extractDataRows]

/-- C7, witness: the amended characterization applied to the header
`["DIM1", "OBS_VALUE"]` and probe row `["", "5"]`, which qualifies via the
measure column. -/
theorem c7_witness :
    (seriesAttrCheck Ex.tbl Ex.hdr7 Ex.row7 = .ok (true, true) ↔
      codeSeriesAttrQualifies Ex.tbl Ex.hdr7 Ex.row7) ∧
    codeSeriesAttrQualifies Ex.tbl Ex.hdr7 Ex.row7 ∧
    findHeader Ex.tbl [Ex.hdr7, Ex.row7, ["a", "1"]] =
      .ok (mkSeriesResult Ex.hdr7 Ex.row7 1 (true, true)) := by
  refine ⟨c7_amended_theorem.1 Ex.tbl Ex.hdr7 Ex.row7 (by decide), by decide, ?_⟩
  exact (c7_amended_theorem.2 Ex.tbl Ex.hdr7 Ex.row7 [["a", "1"]] (true, true)
    (by decide) (by decide)).1

/-! ### Claim C8 -/

theorem strLeB_total : ∀ x y : List Char, strLeB x y = true ∨ strLeB y x = true
  | [], _ => .inl rfl
  | _ :: _, [] => .inr rfl
  | a :: as, b :: bs => by
    by_cases h1 : a.toNat < b.toNat
    · left
      simp [strLeB, h1]
    · by_cases h2 : b.toNat < a.toNat
      · right
        simp [strLeB, h2]
      · rcases strLeB_total as bs with h | h
        · left
          simp [strLeB, h1, h2, h]
        · right
          simp [strLeB, h1, h2, h]

theorem strLeB_trans : ∀ x y z : List Char,
    strLeB x y = true → strLeB y z = true → strLeB x z = true
  | [], _, _, _, _ => rfl
  | _ :: _, [], _, h1, _ => by simp [strLeB] at h1
  | _ :: _, _ :: _, [], _, h2 => by simp [strLeB] at h2
  | a :: as, b :: bs, c :: cs, h1, h2 => by
    simp only [strLeB] at h1 h2 ⊢
    by_cases hab : a.toNat < b.toNat
    · by_cases hbc : b.toNat < c.toNat
      · simp [show a.toNat < c.toNat by omega]
      · by_cases hcb : c.toNat < b.toNat
        · simp [hbc, hcb] at h2
        · simp [show a.toNat < c.toNat by omega]
    · by_cases hba : b.toNat < a.toNat
      · simp [hab, hba] at h1
      · simp [hab, hba] at h1
        by_cases hbc : b.toNat < c.toNat
        · simp [show a.toNat < c.toNat by omega]
        · by_cases hcb : c.toNat < b.toNat
          · simp [hbc, hcb] at h2
          · simp [hbc, hcb] at h2
            have hac : ¬ a.toNat < c.toNat := by omega
            have hca : ¬ c.toNat < a.toNat := by omega
            simp [hac, hca]
            exact strLeB_trans as bs cs h1 h2

theorem charEq_of_toNat_eq {a b : Char} (h : a.toNat = b.toNat) : a = b :=
  Char.eq_of_val_eq (UInt32.eq_of_toBitVec_eq (BitVec.eq_of_toNat_eq h))

theorem strLeB_antisymm : ∀ x y : List Char,
    strLeB x y = true → strLeB y x = true → x = y
  | [], [], _, _ => rfl
  | [], _ :: _, _, h2 => by simp [strLeB] at h2
  | _ :: _, [], h1, _ => by simp [strLeB] at h1
  | a :: as, b :: bs, h1, h2 => by
    simp only [strLeB] at h1 h2
    by_cases hab : a.toNat < b.toNat <;> by_cases hba : b.toNat < a.toNat <;>
      simp [hab, hba] at h1 h2
    · omega
    · rw [charEq_of_toNat_eq (show a.toNat = b.toNat by omega),
        strLeB_antisymm as bs h1 h2]

/-- Two sorted lists of dimension columns that are permutations of each
other, with pairwise-distinct sort keys, are equal. -/
theorem sorted_key_nodup_eq : ∀ (l₁ l₂ : List DimCol), l₁.Perm l₂ →
    l₁.Sorted dimLe → l₂.Sorted dimLe → (l₁.map dimKey).Nodup → l₁ = l₂
  | [], l₂, hp, _, _, _ => hp.nil_eq
  | a :: t, [], hp, _, _, _ => by
    exact absurd hp.symm.nil_eq (by simp)
  | a :: t, b :: t₂, hp, hs₁, hs₂, hn => by
    have hb : b = a := by
      rcases List.mem_cons.mp (hp.subset (List.mem_cons_self a t)) with h | hat
      · exact h.symm
      · rcases List.mem_cons.mp (hp.symm.subset (List.mem_cons_self b t₂)) with h | hbt
        · exact h
        · exfalso
          have h1 : dimLe a b := List.rel_of_sorted_cons hs₁ b hbt
          have h2 : dimLe b a := List.rel_of_sorted_cons hs₂ a hat
          have hkey : dimKey a = dimKey b := strLeB_antisymm _ _ h1 h2
          have hnd := List.nodup_cons.mp hn
          exact hnd.1 (hkey ▸ List.mem_map_of_mem dimKey hbt)
    subst hb
    have ht : t = t₂ :=
      sorted_key_nodup_eq t t₂ hp.cons_inv hs₁.of_cons hs₂.of_cons
        (List.nodup_cons.mp hn).2
    rw [ht]

/-- Sorting is invariant under permutation of the dimension columns when
the sort keys are pairwise distinct. -/
theorem sortDims_perm_eq {l₁ l₂ : List DimCol} (hp : l₁.Perm l₂)
    (hn : (l₁.map dimKey).Nodup) : sortDims l₁ = sortDims l₂ := by
  haveI : IsTotal DimCol dimLe := ⟨fun a b => strLeB_total (dimKey a) (dimKey b)⟩
  haveI : IsTrans DimCol dimLe := ⟨fun _ _ _ h h' => strLeB_trans _ _ _ h h'⟩
  apply sorted_key_nodup_eq
  · exact ((List.perm_insertionSort dimLe l₁).trans hp).trans
      (List.perm_insertionSort dimLe l₂).symm
  · exact List.sorted_insertionSort dimLe l₁
  · exact List.sorted_insertionSort dimLe l₂
  · exact (((List.perm_insertionSort dimLe l₁).map dimKey).nodup_iff).mpr hn

/-- C8: the context-identifier **template** really does interpose the
non-time dimension columns in ascending sort order of their target
dimension concept identifiers (source line 967, whose loop at line 968
unpacks the 6-tuples correctly), so for any permutation of columns with
pairwise-distinct identifiers the hole order — and the formatted
identifier for a fixed value assignment — is the same.  But the builder
never produces a context identifier for any observation: the
per-observation value loop at line 1199 unpacks the same 6-tuples into
five names and raises `ValueError` on its first element, so a run with an
observation crashes with an empty context cache. -/
theorem c8_theorem :
    (∀ (l₁ l₂ : List DimCol), l₁.Perm l₂ → (l₁.map dimKey).Nodup →
      cntxIdHoles l₁ = cntxIdHoles l₂ ∧
      ∀ (e pid : String) (vals : List (String × String)),
        formatCntxId e pid (cntxIdHoles l₁) vals = formatCntxId e pid (cntxIdHoles l₂) vals) ∧
    (∀ (dc : DimCol) (rest : List DimCol),
      cntxIdFormatValues (dc :: rest) =
        .error "ValueError: too many values to unpack (expected 5)") ∧
    Ex.oneObsRun.contextsOf = [] ∧
    Ex.oneObsRun = .crashed [] "ValueError: too many values to unpack (expected 5)" := by
  refine ⟨?_, fun dc rest => rfl, by decide, by decide⟩
  intro l₁ l₂ hp hn
  have h : sortDims l₁ = sortDims l₂ := sortDims_perm_eq hp hn
  constructor
  · unfold cntxIdHoles
    rw [h]
  · intro e pid vals
    unfold cntxIdHoles
    rw [h]

/-- C8, witness: the template clause applied to the two column orders of
the `FREQ` / `REF_AREA` dimension pair, which produce the same formatted
identifier. -/
theorem c8_witness :
    [Ex.dimColA, Ex.dimColB].Perm [Ex.dimColB, Ex.dimColA] ∧
    ([Ex.dimColA, Ex.dimColB].map dimKey).Nodup ∧
    formatCntxId "ent" "2020-01-01" (cntxIdHoles [Ex.dimColA, Ex.dimColB])
        [("FREQ", "A"), ("REF_AREA", "DE")] =
      formatCntxId "ent" "2020-01-01" (cntxIdHoles [Ex.dimColB, Ex.dimColA])
        [("FREQ", "A"), ("REF_AREA", "DE")] := by
  have hp : [Ex.dimColA, Ex.dimColB].Perm [Ex.dimColB, Ex.dimColA] :=
    List.Perm.swap Ex.dimColB Ex.dimColA []
  exact ⟨hp, by decide,
    (c8_theorem.1 [Ex.dimColA, Ex.dimColB] [Ex.dimColB, Ex.dimColA] hp (by decide)).2
      "ent" "2020-01-01" [("FREQ", "A"), ("REF_AREA", "DE")]⟩

end Sdmx

namespace RtOpts

/-! ### Claim C9 -/

/-- C9: constructing `RuntimeOptions` with a `pluginOptions` key that
already exists as a base option raises `RuntimeOptionsException` at
construction time, and the exception is raised **before** any plugin
option is applied: the object state carried at the raise equals the input
state (no `setattr` has run, so no plugin value partially overwrites base
state — base keys always win). -/
theorem c9_theorem (o : RuntimeOptions) (po : List (String × OptionValue)) (hw : Bool)
    (k : String) (hk : k ∈ po.map Prod.fst)
    (hbase : (Sdmx.alookup o.base k).isSome = true) :
    postInit o (some po) hw =
      .error ("Provided plugin options already exist as base options", o) := by
  have hpo : po ≠ [] := by
    intro e
    subst e
    simp at hk
  have hfil : k ∈ (po.map Prod.fst).filter (fun n => o.hasattrB n) := by
    refine List.mem_filter.mpr ⟨hk, ?_⟩
    simp [RuntimeOptions.hasattrB, hbase]
  have hsne : ((po.map Prod.fst).filter (fun n => o.hasattrB n)).insertionSort (· ≤ ·) ≠ [] := by
    intro e
    have hperm := List.perm_insertionSort (α := String) (· ≤ ·)
      ((po.map Prod.fst).filter (fun n => o.hasattrB n))
    rw [e] at hperm
    exact absurd (hperm.symm.subset hfil) (by simp)
  unfold postInit
  simp only [Option.getD_some]
  rw [if_pos hpo, if_pos hsne]

/-- C9, witness: the collision check applied to the default options and a
plugin option named `about`. -/
theorem c9_witness :
    "about" ∈ ([("about", OptionValue.strV "x")].map Prod.fst) ∧
    (Sdmx.alookup defaultOptions.base "about").isSome = true ∧
    postInit defaultOptions (some [("about", OptionValue.strV "x")]) false =
      .error ("Provided plugin options already exist as base options", defaultOptions) := by
  refine ⟨by decide, by decide, ?_⟩
  exact c9_theorem defaultOptions [("about", OptionValue.strV "x")] false "about"
    (by decide) (by decide)

end RtOpts
